import Mathlib

/-!
Verification of the simulation core of the DimensionSwitch platform game
(`src/game/`): collision resolution (`utils.check_collision`,
`Player.check_platform_collisions`), the actor controller (`Player`),
the particle arena (`World`), and the per-frame time scaling
(`GameController.update`).

Numbers: Python floats are modelled as exact rationals (`ℚ`); all control
flow settled here consists of comparisons and ring operations that are
exact in `ℚ`.  `pygame.Rect` stores integer coordinates obtained by
truncating its float arguments toward zero; this truncation is modelled
by `pyInt`.
-/

set_option maxRecDepth 4000

namespace DimSwitch

/-- Python `int()` truncation toward zero, as applied by `pygame.Rect`
to each float argument. -/
def pyInt (q : ℚ) : ℤ := if 0 ≤ q then ⌊q⌋ else ⌈q⌉

/-- A `pygame.Rect`: integer left/top/width/height. -/
structure Rect where
  left : ℤ
  top : ℤ
  w : ℤ
  h : ℤ
deriving DecidableEq

/-- Model of `pygame.Rect.right = left + width`. -/
def Rect.right (r : Rect) : ℤ := r.left + r.w

/-- Model of `pygame.Rect.bottom = top + height`. -/
def Rect.bottom (r : Rect) : ℤ := r.top + r.h

/-- Model of `pygame.Rect.centerx = left + width // 2` (all rect widths in the game
are nonnegative, where Python floor division and `Int` division agree). -/
def Rect.centerx (r : Rect) : ℤ := r.left + r.w / 2

/-- Model of `pygame.Rect.centery = top + height // 2`. -/
def Rect.centery (r : Rect) : ℤ := r.top + r.h / 2

/-- Model of `pygame.Rect.colliderect`: true iff the rectangles strictly overlap
(rectangles sharing only an edge do not collide). -/
def Rect.colliderect (a b : Rect) : Bool :=
  a.left < b.right && b.left < a.right && a.top < b.bottom && b.top < a.bottom

/-- Model of `pygame.Rect.collidepoint` on float coordinates: the point is inside
when `left ≤ x < right` and `top ≤ y < bottom`. -/
def Rect.collidepoint (r : Rect) (x y : ℚ) : Bool :=
  (r.left : ℚ) ≤ x && x < (r.right : ℚ) && (r.top : ℚ) ≤ y && y < (r.bottom : ℚ)

/-- Model of `pygame.Rect(x, y, w, h)` built from float arguments: each is
truncated toward zero. -/
def mkRect (x y w h : ℚ) : Rect := ⟨pyInt x, pyInt y, pyInt w, pyInt h⟩

/-- Result of `utils.check_collision`, which in the source is one of the
strings `""`, `"top"`, `"bottom"`, `"left"`, `"right"`. -/
inductive CollisionSide where
  | none
  | top
  | bottom
  | left
  | right
deriving DecidableEq

/-- Model of `utils.check_collision` (src/game/utils.py:7-37): directional AABB
collision test between `rect1` (the actor) and `rect2` (the obstacle). -/
def check_collision (rect1 rect2 : Rect) : CollisionSide :=
  if ¬ (rect1.colliderect rect2 = true) then CollisionSide.none
  else
    let overlap_x := min rect1.right rect2.right - max rect1.left rect2.left
    let overlap_y := min rect1.bottom rect2.bottom - max rect1.top rect2.top
    if overlap_x ≥ overlap_y then
      if rect1.centery < rect2.centery then CollisionSide.bottom
      else CollisionSide.top
    else
      if rect1.centerx < rect2.centerx then CollisionSide.right
      else CollisionSide.left

/-! ### Constants (src/game/constants.py) -/

def GRAVITY : ℚ := 0.5
def PLAYER_SPEED : ℚ := 5
def PLAYER_STARTING_LIVES : ℤ := 3
def PLAYER_INVINCIBILITY_AFTER_HIT : ℚ := 2.0
def LEVEL_WIDTH : ℚ := 3000
def LEVEL_HEIGHT : ℚ := 1000
def PLAYER_JUMP_STRENGTH : ℚ := -16.0
def MAX_FALL_SPEED : ℚ := 15.0

/-! ### Association-list model of Python dictionaries

Python dictionaries preserve insertion order; updating an existing key
keeps its position, inserting a new key appends at the end, keys are
unique. -/

/-- First value bound to `k`, like `k in d` / `d[k]` on a Python dict. -/
def dictGet? {α : Type} : List (String × α) → String → Option α
  | [], _ => Option.none
  | kv :: rest, k => if kv.1 = k then some kv.2 else dictGet? rest k

/-- Python `d.get(k, default)`. -/
def dictGetD {α : Type} (l : List (String × α)) (k : String) (d : α) : α :=
  match dictGet? l k with
  | some v => v
  | Option.none => d

/-- Python `d[k] = v`: replace in place if the key exists, else append. -/
def dictSet {α : Type} : List (String × α) → String → α → List (String × α)
  | [], k, v => [(k, v)]
  | kv :: rest, k, v => if kv.1 = k then (k, v) :: rest else kv :: dictSet rest k v

/-- Python `del d[k]`. -/
def dictDel {α : Type} : List (String × α) → String → List (String × α)
  | [], _ => []
  | kv :: rest, k => if kv.1 = k then rest else kv :: dictDel rest k

/-! ### World objects (src/game/game_objects.py) -/

/-- Model of `game_objects.Platform`: static geometry; `dimension_visible = -1`
means visible in every dimension. -/
structure Platform where
  x : ℚ
  y : ℚ
  width : ℚ
  height : ℚ
  dimension_visible : ℤ := -1
deriving DecidableEq

def Platform.get_rect (p : Platform) : Rect := mkRect p.x p.y p.width p.height

/-- Model of `game_objects.Portal`: fixed 40×60 size. -/
structure Portal where
  x : ℚ
  y : ℚ
deriving DecidableEq

def Portal.get_rect (p : Portal) : Rect := mkRect p.x p.y 40 60

/-- Model of `game_objects.Collectible`: fixed 20×20 size with a one-way
`collected` flag. -/
structure Collectible where
  x : ℚ
  y : ℚ
  collected : Bool := false
deriving DecidableEq

def Collectible.get_rect (c : Collectible) : Rect := mkRect c.x c.y 20 20

/-- Model of `game_objects.Enemy`: fixed 40×40 size, patrol bounds, terminal
`is_dead` flag. -/
structure Enemy where
  x : ℚ
  y : ℚ
  patrol_left : ℚ
  patrol_right : ℚ
  speed : ℚ := 2
  direction : ℤ := 1
  is_dead : Bool := false
deriving DecidableEq

def Enemy.get_rect (e : Enemy) : Rect := mkRect e.x e.y 40 40

/-- Model of `Enemy.die`. -/
def Enemy.die (e : Enemy) : Enemy := { e with is_dead := true }

/-! ### The actor (src/game/player.py) -/

/-- Model of `player.Player` state.  `collision_rect_bottom` models
`collision_rects["bottom"]`; the `top`/`left`/`right` rects are written
by `_update_collision_rects` but never read by any game logic, so they
are not tracked.  `last_portal_time` holds a wall-clock timestamp
(`time.time()` is passed in explicitly as `now` wherever the source
calls it). -/
structure Player where
  x : ℚ
  y : ℚ
  width : ℚ
  height : ℚ
  velocity_x : ℚ
  velocity_y : ℚ
  on_ground : Bool
  is_dead : Bool
  level_completed : Bool
  collected_item : Bool
  jump_count : ℕ
  max_jumps : ℕ
  direction : ℤ
  animation_frame : ℕ
  frame_timer : ℚ
  animation_state : String
  last_x : ℚ
  step_distance : ℚ
  lives : ℤ
  score : ℤ
  active_powerups : List (String × Bool)
  powerup_timers : List (String × ℚ)
  invincible_timer : ℚ
  collision_rect_bottom : Rect
  last_safe_position : ℚ × ℚ
  last_portal_time : ℚ
deriving DecidableEq

/-- Model of `Player.reset(x, y)` (src/game/player.py:24-77); `now` is the value
of `time.time()` at the call. -/
def Player.reset (x y now : ℚ) : Player where
  x := x
  y := y
  width := 40
  height := 60
  velocity_x := 0
  velocity_y := 0
  on_ground := false
  is_dead := false
  level_completed := false
  collected_item := false
  jump_count := 0
  max_jumps := 2
  direction := 1
  animation_frame := 0
  frame_timer := 0
  animation_state := "idle"
  last_x := x
  step_distance := 0
  lives := PLAYER_STARTING_LIVES
  score := 0
  active_powerups := []
  powerup_timers := []
  invincible_timer := 0
  collision_rect_bottom := mkRect (x + 5) (y + 60 - 5) (40 - 10) 5
  last_safe_position := (x, y)
  last_portal_time := now

/-- Model of `Player.get_rect`. -/
def Player.get_rect (p : Player) : Rect := mkRect p.x p.y p.width p.height

/-- Model of `Player.get_powerup_effect` (src/game/player.py:137-150). -/
def Player.get_powerup_effect (p : Player) (powerup_type : String) (default_value : ℚ) : ℚ :=
  if dictGetD p.active_powerups powerup_type false = false then default_value
  else if powerup_type = "speed" then 1.5
  else if powerup_type = "jump" then 1.3
  else if powerup_type = "gravity" then 0.7
  else default_value

/-- Model of `Player.jump` (src/game/player.py:101-117): returns the new state and
whether the jump succeeded. -/
def Player.jump (p : Player) : Player × Bool :=
  if p.jump_count < p.max_jumps then
    let jump_multiplier := p.get_powerup_effect "jump" 1.0
    let jump_strength := if p.jump_count > 0 then PLAYER_JUMP_STRENGTH * 0.8 else PLAYER_JUMP_STRENGTH
    ({ p with velocity_y := jump_strength * jump_multiplier
            , jump_count := p.jump_count + 1
            , on_ground := false
            , animation_state := "jump" }, true)
  else (p, false)

/-- Model of `Player.add_powerup` (src/game/player.py:123-135). -/
def Player.add_powerup (p : Player) (powerup_type : String) (duration : ℚ) : Player :=
  let active := dictSet p.active_powerups powerup_type true
  let timers :=
    match dictGet? p.powerup_timers powerup_type with
    | some t => dictSet p.powerup_timers powerup_type (t + duration)
    | Option.none => dictSet p.powerup_timers powerup_type duration
  { p with active_powerups := active
         , powerup_timers := timers
         , max_jumps := if powerup_type = "jump" then 3 else p.max_jumps }

/-- The expiry loop body of `Player.update_powerups`
(src/game/player.py:164-171): deactivate the powerup, drop its timer,
and revert the jump limit when `"jump"` expires. -/
def expirePowerup (s : Player) (t : String) : Player :=
  { s with active_powerups := dictSet s.active_powerups t false
         , powerup_timers := dictDel s.powerup_timers t
         , max_jumps := if t = "jump" then 2 else s.max_jumps }

/-- Model of `Player.update_powerups` (src/game/player.py:152-175): decrement all
timers, deactivate and remove the expired ones, then tick the
hit-invincibility timer. -/
def Player.update_powerups (p : Player) (dt : ℚ) : Player :=
  let timers := p.powerup_timers.map (fun kv => (kv.1, kv.2 - dt))
  let expired := (timers.filter (fun kv => kv.2 ≤ 0)).map (fun kv => kv.1)
  let p1 : Player := expired.foldl expirePowerup { p with powerup_timers := timers }
  if 0 < p1.invincible_timer then { p1 with invincible_timer := p1.invincible_timer - dt } else p1

/-- Model of `Player.is_invincible` (src/game/player.py:309-311). -/
def Player.is_invincible (p : Player) : Bool :=
  decide (0 < p.invincible_timer) || dictGetD p.active_powerups "invincibility" false

/-- The enlarged ground-probe rectangle of
`Player.check_platform_collisions` (src/game/player.py:320-325):
`pygame.Rect(x + 2, y + height - 6, width - 4, 10)`. -/
def Player.bottomProbeRect (p : Player) : Rect :=
  mkRect (p.x + 2) (p.y + p.height - 6) (p.width - 4) 10

/-- One iteration of the platform loop in
`Player.check_platform_collisions` (src/game/player.py:327-370).
`player_rect` and `bottom_rect` are the rectangles computed once before
the loop from the entry position; the source never recomputes them, so
every platform is tested against the entry-time geometry while the
position updates accumulate on the state. -/
def platformStep (player_rect bottom_rect : Rect) (current_dimension : ℤ)
    (s : Player) (platform : Platform) : Player :=
  if ¬ (platform.dimension_visible = -1 ∨ platform.dimension_visible = current_dimension) then s
  else
    let platform_rect := platform.get_rect
    if ¬ (player_rect.colliderect platform_rect = true) then s
    else if bottom_rect.colliderect platform_rect = true ∧ 0 ≤ s.velocity_y then
      { s with y := (platform_rect.top : ℚ) - s.height
             , velocity_y := 0
             , on_ground := true
             , jump_count := 0 }
    else
      match check_collision player_rect platform_rect with
      | CollisionSide.bottom =>
          { s with y := (platform_rect.top : ℚ) - s.height
                 , velocity_y := 0
                 , on_ground := true
                 , jump_count := 0 }
      | CollisionSide.top => { s with y := (platform_rect.bottom : ℚ), velocity_y := 0 }
      | CollisionSide.left => { s with x := (platform_rect.left : ℚ) - s.width + 1, velocity_x := 0 }
      | CollisionSide.right => { s with x := (platform_rect.right : ℚ) - 1, velocity_x := 0 }
      | CollisionSide.none => s

/-- Model of `Player.check_platform_collisions` (src/game/player.py:313-370):
clear `on_ground`, then resolve every dimension-visible overlapping
platform in registry order (last write wins). -/
def Player.check_platform_collisions (p : Player) (platforms : List Platform)
    (current_dimension : ℤ) : Player :=
  let p0 : Player := { p with on_ground := false }
  let player_rect := p0.get_rect
  let bottom_rect := p0.bottomProbeRect
  platforms.foldl (platformStep player_rect bottom_rect current_dimension) p0

/-- The per-portal hit test of `Player._check_portal_collision`
(src/game/player.py:384-395): the player's center point is inside the
portal, or the AABBs overlap. -/
def portalHit (p : Player) (portal : Portal) : Bool :=
  portal.get_rect.collidepoint (p.x + p.width / 2) (p.y + p.height / 2)
    || p.get_rect.colliderect portal.get_rect

/-- The portal loop of `Player._check_portal_collision`
(src/game/player.py:384-397): the first hit portal refreshes
`last_portal_time` to `now` and reports a trigger. -/
def portalScan (p : Player) (now : ℚ) : List Portal → Player × Bool
  | [] => (p, false)
  | portal :: rest =>
      if portalHit p portal = true then ({ p with last_portal_time := now }, true)
      else portalScan p now rest

/-- Model of `Player._check_portal_collision` (src/game/player.py:372-397):
rejects every overlap within 1 second of `last_portal_time`; otherwise
scans the portals.  `now` is the source's `time.time()`. -/
def Player.check_portal_collision (p : Player) (portals : List Portal) (now : ℚ) : Player × Bool :=
  if now - p.last_portal_time < 1 then (p, false)
  else portalScan p now portals

/-- Model of `Player.check_collectible_collisions` (src/game/player.py:399-409):
mark every uncollected overlapping collectible as collected, reporting
whether anything was collected. -/
def Player.check_collectible_collisions (p : Player) (collectibles : List Collectible) :
    List Collectible × Bool :=
  collectibles.foldl
    (fun (acc : List Collectible × Bool) (c : Collectible) =>
      if c.collected = false ∧ p.get_rect.colliderect c.get_rect = true then
        (acc.1 ++ [{ c with collected := true }], true)
      else (acc.1 ++ [c], acc.2))
    ([], false)

/-- Model of `Player.check_enemy_collisions` (src/game/player.py:411-438): walk
the enemy registry; a stomp (stored bottom collision rect overlapping a
live enemy while falling) kills the enemy and bounces the player, an
overlap while vulnerable reports a player hit, and either outcome
returns immediately, leaving the remaining enemies unvisited. -/
def Player.check_enemy_collisions (p : Player) : List Enemy → Player × List Enemy × Option String
  | [] => (p, [], Option.none)
  | enemy :: rest =>
    if enemy.is_dead = true then
      let r := p.check_enemy_collisions rest
      (r.1, enemy :: r.2.1, r.2.2)
    else if p.get_rect.colliderect enemy.get_rect = true then
      if p.collision_rect_bottom.colliderect enemy.get_rect = true ∧ 0 < p.velocity_y then
        ({ p with velocity_y := PLAYER_JUMP_STRENGTH * 0.7 }, enemy.die :: rest, some "enemy_death")
      else if p.is_invincible = false then (p, enemy :: rest, some "player_death")
      else
        let r := p.check_enemy_collisions rest
        (r.1, enemy :: r.2.1, r.2.2)
    else
      let r := p.check_enemy_collisions rest
      (r.1, enemy :: r.2.1, r.2.2)

/-- The per-frame event record returned by `Player.update` (a Python
dict whose keys are only ever set to `True`). -/
structure Events where
  step : Bool := false
  level_complete : Bool := false
  collect : Bool := false
  player_death : Bool := false
  enemy_death : Bool := false
deriving DecidableEq

/-- Model of `Player._update_animation` (src/game/player.py:177-192). -/
def Player.update_animation (p : Player) (dt : ℚ) : Player :=
  let frame_timer := p.frame_timer + dt
  let anim_speed : ℚ :=
    if p.animation_state = "run" then 0.07
    else if p.animation_state = "jump" ∨ p.animation_state = "fall" then 0.15
    else 0.1
  if anim_speed ≤ frame_timer then
    { p with animation_frame := (p.animation_frame + 1) % 4, frame_timer := 0 }
  else { p with frame_timer := frame_timer }

/-- Integration phase of `Player.update` (src/game/player.py:218-244):
remember the safe position, apply gravity with the gravity-powerup
multiplier, clamp the fall speed, integrate the position, clamp `x` to
the level bounds, advance the animation and refresh the stored collision
rectangle. -/
def Player.integrate (p : Player) (dt : ℚ) : Player :=
  let p1 : Player :=
    if p.on_ground = true then { p with last_safe_position := (p.x, p.y) } else p
  let gravity_multiplier := p1.get_powerup_effect "gravity" 1.0
  let vy1 := p1.velocity_y + GRAVITY * gravity_multiplier * dt
  let max_fall_speed := MAX_FALL_SPEED * gravity_multiplier
  let vy2 := min vy1 max_fall_speed
  let x1 := p1.x + p1.velocity_x * dt
  let y1 := p1.y + vy2 * dt
  let x2 := max 0 (min x1 (LEVEL_WIDTH - p1.width))
  let p2 : Player := { p1 with velocity_y := vy2, x := x2, y := y1 }
  let p3 := p2.update_animation dt
  { p3 with collision_rect_bottom :=
      mkRect (p3.x + 5) (p3.y + p3.height - 5) (p3.width - 10) 5 }

/-- Footstep-event phase of `Player.update` (src/game/player.py:249-257). -/
def Player.stepEventPhase (p : Player) : Player × Bool :=
  let moved := |p.x - p.last_x|
  let pe : Player × Bool :=
    if p.on_ground = true ∧ 0 < moved then
      let d := p.step_distance + moved
      if 40 ≤ d then ({ p with step_distance := 0 }, true)
      else ({ p with step_distance := d }, false)
    else (p, false)
  ({ pe.1 with last_x := pe.1.x }, pe.2)

/-- Animation-state phase of `Player.update` (src/game/player.py:262-271). -/
def Player.animationStatePhase (p : Player) : Player :=
  if p.on_ground = false then
    if p.velocity_y < 0 then { p with animation_state := "jump" }
    else { p with animation_state := "fall" }
  else if p.velocity_x = 0 then { p with animation_state := "idle" }
  else { p with animation_state := "run" }

/-- Death-processing phase of `Player.update` (src/game/player.py:288-306):
consume the enemy-collision outcome, then the fall-out-of-world check.
On an enemy hit while vulnerable, lives drop by one and, if any remain,
the hit-invincibility timer is armed; the fall-out branch only
decrements lives and never arms the timer. -/
def Player.applyDeathEvents (p : Player) (enemy_hit : Option String) (ev : Events) :
    Player × Events :=
  let r1 : Player × Events :=
    if enemy_hit = some "player_death" then
      if p.is_invincible = false ∧ dictGetD p.active_powerups "invincibility" false = false then
        let lives := p.lives - 1
        let dead := decide (lives ≤ 0)
        let p1 : Player := { p with lives := lives, is_dead := dead }
        let p2 : Player := if dead = false then { p1 with invincible_timer := PLAYER_INVINCIBILITY_AFTER_HIT } else p1
        (p2, { ev with player_death := true })
      else (p, ev)
    else if enemy_hit = some "enemy_death" then (p, { ev with enemy_death := true })
    else (p, ev)
  if LEVEL_HEIGHT < r1.1.y then
    ({ r1.1 with lives := r1.1.lives - 1, is_dead := decide (r1.1.lives - 1 ≤ 0) },
     { r1.2 with player_death := true })
  else r1

/-- Result record of `Player.update`: the new actor state, the mutated
collectible and enemy registries, and the event dict. -/
structure UpdateResult where
  player : Player
  collectibles : List Collectible
  enemies : List Enemy
  events : Events
deriving DecidableEq

/-- Model of `Player.update` (src/game/player.py:208-307), phase by phase in
source order.  `now` is the value of `time.time()` used by the portal
check; the `time.sleep(0.3)` after a portal trigger has no effect on any
modelled state. -/
def Player.update (p : Player) (dt : ℚ) (platforms : List Platform) (portals : List Portal)
    (collectibles : List Collectible) (enemies : List Enemy) (current_dimension : ℤ)
    (now : ℚ) : UpdateResult :=
  if p.is_dead = true then ⟨p, collectibles, enemies, {}⟩
  else
    let p1 := p.integrate dt
    let p2 := p1.check_platform_collisions platforms current_dimension
    let se := p2.stepEventPhase
    let p3 := se.1
    let ev1 : Events := { step := se.2 }
    let p4 := p3.update_powerups dt
    let p5 := p4.animationStatePhase
    let pc := p5.check_portal_collision portals now
    let p6 : Player := if pc.2 = true then { pc.1 with level_completed := true } else pc.1
    let ev2 : Events := { ev1 with level_complete := pc.2 }
    let cc := p6.check_collectible_collisions collectibles
    let p7 : Player := if cc.2 = true then { p6 with collected_item := true } else p6
    let ev3 : Events := { ev2 with collect := cc.2 }
    let ec := p7.check_enemy_collisions enemies
    let de := ec.1.applyDeathEvents ec.2.2 ev3
    ⟨de.1, cc.1, ec.2.1, de.2⟩

/-! ### The particle arena (src/game/world.py) -/

/-- One row of `World.foreground_particles`
(`x, y, size, vx, vy, lifetime, color_index`, stored as floats). -/
structure Particle where
  x : ℚ
  y : ℚ
  size : ℚ
  vx : ℚ
  vy : ℚ
  life : ℚ
  color_index : ℚ
deriving DecidableEq

/-- Model of `World.particle_pool_size` (src/game/world.py:24). -/
def particle_pool_size : ℕ := 300

/-- The particle-arena slice of `World` state: the fixed pool array and
`active_particles` (src/game/world.py:23-26, 82). -/
structure ParticleArena where
  foreground_particles : List Particle
  active_particles : ℕ
deriving DecidableEq

/-- Numpy slice assignment `pool[:len(vals)] = vals`: overwrite the
prefix, keep the rest of the array. -/
def writeFront {α : Type} (pool vals : List α) : List α :=
  vals ++ pool.drop vals.length

/-- Aging of one active particle in `World.update`
(src/game/world.py:363-365): `x += vx*dt`, `y += vy*dt`,
`lifetime -= dt`. -/
def ageParticle (dt : ℚ) (pa : Particle) : Particle :=
  { pa with x := pa.x + pa.vx * dt, y := pa.y + pa.vy * dt, life := pa.life - dt }

/-- The foreground-particle aging-and-compaction block of `World.update`
(src/game/world.py:357-377): age the active slice in place, count the
dead entries, and if any died move the survivors (in order, via
`np.where(lifetime > 0)`) to the front of the pool and shrink
`active_particles` by the dead count. -/
def worldParticleStep (w : ParticleArena) (dt : ℚ) : ParticleArena :=
  if w.active_particles = 0 then w
  else
    let aged := (w.foreground_particles.take w.active_particles).map (ageParticle dt)
    let rest := w.foreground_particles.drop w.active_particles
    let dead_count := (aged.filter (fun pa => pa.life ≤ 0)).length
    if dead_count = 0 then ⟨aged ++ rest, w.active_particles⟩
    else
      let newActive := w.active_particles - dead_count
      if newActive = 0 then ⟨aged ++ rest, 0⟩
      else
        let survivors := aged.filter (fun pa => 0 < pa.life)
        ⟨writeFront (aged ++ rest) survivors, newActive⟩

/-- Model of `World._add_dimension_particle` (src/game/world.py:398-462).  The
source draws `offset_x, offset_y, size, vx, vy, life` from `random`
(their distribution, not their use, depends on the dimension); here the
draws are explicit arguments.  With a full pool the method returns
before touching any state or drawing any randomness. -/
def addDimensionParticle (w : ParticleArena) (dimension : ℤ)
    (player_x player_y camera_x camera_y : ℚ)
    (offset_x offset_y : ℤ) (size : ℤ) (vx vy life : ℚ) : ParticleArena :=
  if particle_pool_size ≤ w.active_particles then w
  else
    let dim_index : ℤ := min (max 1 dimension) 3 - 1
    let pos_x := player_x + (offset_x : ℚ) - camera_x
    let pos_y := player_y + (offset_y : ℚ) - camera_y
    let safe_pos_x := max (min pos_x 1280) 0
    let safe_pos_y := max (min pos_y 720) 0
    let safe_size := max (min (size : ℚ) 10) 1
    let safe_vx := max (min vx 5) (-5)
    let safe_vy := max (min vy 5) (-5)
    let safe_life := max (min life 10) 0.1
    let safe_dim_index : ℤ := max (min dim_index 2) 0
    let particle_data : Particle :=
      ⟨safe_pos_x, safe_pos_y, safe_size, safe_vx, safe_vy, safe_life, (safe_dim_index : ℚ)⟩
    ⟨w.foreground_particles.set w.active_particles particle_data, w.active_particles + 1⟩

/-! ### Per-frame time scaling (src/game/game_controller.py) -/

/-- The `time_factor` computed by `GameController.update`
(src/game/game_controller.py:266-273): 0.5 in dimension 3, then scaled
by 0.9 / 1.1 for difficulty 0 / 2. -/
def timeFactor (difficulty : ℤ) (current_dimension : ℤ) : ℚ :=
  let tf : ℚ := if current_dimension = 3 then 0.5 else 1.0
  if difficulty = 0 then tf * 0.9
  else if difficulty = 2 then tf * 1.1
  else tf

/-- The first argument actually passed to `self.player.update(...)` by
`GameController.update` (src/game/game_controller.py:276): it is
`time_factor` itself; the frame's `dt` does not occur in the
expression. -/
def playerUpdateDtArg (dt : ℚ) (difficulty : ℤ) (current_dimension : ℤ) : ℚ :=
  timeFactor difficulty current_dimension

/-- The first argument actually passed to `self.world.update(...)` by
`GameController.update` (src/game/game_controller.py:334): likewise
`time_factor` itself. -/
def worldUpdateDtArg (dt : ℚ) (difficulty : ℤ) (current_dimension : ℤ) : ℚ :=
  timeFactor difficulty current_dimension

/-- Modelled from the spec wording of claim C1 (spec §6): the simulation
is claimed to receive "the frame's dt scaled by the difficulty
multiplier (0.9 for difficulty 0, 1.0 for difficulty 1, 1.1 for
difficulty 2)". -/
def claimedDtArg (dt : ℚ) (difficulty : ℤ) : ℚ :=
  dt * (if difficulty = 0 then 0.9 else if difficulty = 2 then 1.1 else 1.0)

/-! ### Example inputs used in the closed theorems below -/

/-- Actor 5 units left of a platform edge, moving upward (so the ground
probe is bypassed), used for the horizontal-resolution theorems. -/
def horizPlayer : Player := { Player.reset 100 100 0 with velocity_y := -1 }

/-- Platform overlapping `horizPlayer` by 5 units on the right. -/
def horizPlatform : Platform := ⟨135, 90, 100, 80, -1⟩

/-- Actor whose top-right corner clips a platform while its vertical
velocity is 0 (ground-contact entry, but the probe misses). -/
def clipPlayer : Player := Player.reset 100 100 0

/-- Platform overlapping only the upper 30 units of `clipPlayer`, by 2
horizontal units. -/
def clipPlatform : Platform := ⟨138, 90, 100, 40, -1⟩

/-- Actor resting just above a platform, falling, for the landing
witnesses. -/
def landPlayer : Player := { Player.reset 320 495 0 with velocity_y := 5 }

/-- Platform under `landPlayer`. -/
def landPlatform : Platform := ⟨300, 550, 200, 20, -1⟩

/-- Actor overlapping a wall that starts at the left world border,
moving upward, used for the out-of-bounds theorem. -/
def borderPlayer : Player := { Player.reset 50 100 0 with velocity_y := -10 }

/-- Wall at the left world border overlapped by `borderPlayer`. -/
def borderPlatform : Platform := ⟨0, 90, 60, 80, -1⟩

/-- Actor far below the fall-out threshold with full lives. -/
def fallenPlayer : Player := Player.reset 100 2000 0

/-- A portal at the origin, containing the center of a freshly reset
actor at the origin. -/
def originPortal : Portal := ⟨0, 0⟩

/-- An inert particle record. -/
def stillParticle : Particle := ⟨0, 0, 1, 0, 0, 5, 0⟩

/-- A particle that dies within one second. -/
def dyingParticle : Particle := ⟨0, 0, 1, 0, 0, 0.5, 0⟩

/-- A full pool of 300 inert particles. -/
def fullArena : ParticleArena := ⟨List.replicate 300 stillParticle, 300⟩

/-- A 300-slot pool whose two active particles are one dying and one
surviving record. -/
def mixedArena : ParticleArena :=
  ⟨dyingParticle :: stillParticle :: List.replicate 298 stillParticle, 2⟩

/-- An operation on the actor from the claim-C5 interface: a `jump()`
call, a powerup grant, a powerup-timer tick, or a platform-collision
resolution pass. -/
inductive PlayerOp where
  | jumpOp
  | addPowerupOp (powerup_type : String) (duration : ℚ)
  | updatePowerupsOp (dt : ℚ)
  | platformsOp (platforms : List Platform) (dim : ℤ)
deriving DecidableEq

/-- Apply one `PlayerOp` through the corresponding `Player` method. -/
def applyOp (p : Player) : PlayerOp → Player
  | PlayerOp.jumpOp => (p.jump).1
  | PlayerOp.addPowerupOp t d => p.add_powerup t d
  | PlayerOp.updatePowerupsOp dt => p.update_powerups dt
  | PlayerOp.platformsOp platforms dim => p.check_platform_collisions platforms dim

/-- Run a sequence of actor operations. -/
def runOps (p : Player) (ops : List PlayerOp) : Player := ops.foldl applyOp p

/-- The jump bookkeeping invariant that actually holds: the counter
never exceeds 3 and the limit is always 2 or 3. -/
def jumpBound (p : Player) : Prop :=
  p.jump_count ≤ 3 ∧ (p.max_jumps = 2 ∨ p.max_jumps = 3)

/-- Whether one iteration of the resolution loop takes a horizontal
(`left`/`right`) branch: the platform is dimension-visible, overlaps the
entry rectangle, is not consumed by the ground-probe branch at the
current state, and `check_collision` labels it `left` or `right`.
Mirrors the branch conditions of `platformStep` exactly. -/
def stepIsHorizontal (pr br : Rect) (dim : ℤ) (s : Player) (plat : Platform) : Bool :=
  decide (plat.dimension_visible = -1 ∨ plat.dimension_visible = dim)
  && pr.colliderect plat.get_rect
  && !(br.colliderect plat.get_rect && decide (0 ≤ s.velocity_y))
  && (decide (check_collision pr plat.get_rect = CollisionSide.left)
      || decide (check_collision pr plat.get_rect = CollisionSide.right))

/-- Whether some iteration of a resolution pass, run from state `s`
through the platforms in registry order, takes a horizontal branch. -/
def horizontalResolved (pr br : Rect) (dim : ℤ) : Player → List Platform → Bool
  | _, [] => false
  | s, plat :: rest =>
      stepIsHorizontal pr br dim s plat
      || horizontalResolved pr br dim (platformStep pr br dim s plat) rest

/-- Whether a `check_platform_collisions` call on `p` resolves some
platform as a horizontal collision. -/
def Player.resolvesHorizontally (p : Player) (platforms : List Platform) (dim : ℤ) : Bool :=
  horizontalResolved ({ p with on_ground := false } : Player).get_rect
    ({ p with on_ground := false } : Player).bottomProbeRect dim
    ({ p with on_ground := false } : Player) platforms

/-! ### Shared helper lemmas -/

theorem pyInt_intCast (n : ℤ) : pyInt (n : ℚ) = n := by
  unfold pyInt
  split
  · exact Int.floor_intCast n
  · exact Int.ceil_intCast n

theorem dictGet?_dictSet_self {α : Type} (l : List (String × α)) (k : String) (v : α) :
    dictGet? (dictSet l k v) k = some v := by
  induction l with
  | nil => simp [dictSet, dictGet?]
  | cons kv rest ih =>
      by_cases h : kv.1 = k
      · simp [dictSet, h, dictGet?]
      · simp [dictSet, h, dictGet?, ih]

/-- Splitting the active slice into survivors and dead entries. -/
theorem particle_filter_split (l : List Particle) :
    (l.filter fun pa => 0 < pa.life).length + (l.filter fun pa => pa.life ≤ 0).length
      = l.length := by
  induction l with
  | nil => rfl
  | cons a l ih =>
      by_cases h : (0 : ℚ) < a.life
      · have h2 : ¬ (a.life ≤ 0) := not_le.mpr h
        simp [List.filter_cons, h, h2]
        omega
      · have h2 : a.life ≤ 0 := not_lt.mp h
        simp [List.filter_cons, h, h2]
        omega

/-! ### C1 -/

/-- C1: FALSE of the code (code bug).  For a running, unpaused frame
with `dt = 1/60`, difficulty 1 and dimension 1, `GameController.update`
passes `time_factor = 1.0` itself — not `dt` scaled by the difficulty
multiplier, which would be `1/60` — as the elapsed-time argument of both
`player.update` and `world.update`; the frame's `dt` never reaches the
simulation. -/
theorem C1_time_factor_passed_instead_of_scaled_dt :
    playerUpdateDtArg (1/60) 1 1 = 1 ∧ worldUpdateDtArg (1/60) 1 1 = 1 ∧
    claimedDtArg (1/60) 1 = 1/60 ∧ (1 : ℚ) ≠ 1/60 := by
  refine ⟨?_, ?_, ?_, ?_⟩ <;>
    norm_num [playerUpdateDtArg, worldUpdateDtArg, claimedDtArg, timeFactor]

/-! ### C6 -/

/-- C6: re-collecting a powerup extends its timer additively.  If type
`X` currently has remaining timer `t1 > 0`, `add_powerup X t2` leaves
the timer at exactly `t1 + t2` and the active flag true. -/
theorem C6_add_powerup_extends_timer (p : Player) (X : String) (t1 t2 : ℚ)
    (h1 : dictGet? p.powerup_timers X = some t1) (hpos : 0 < t1) :
    dictGet? (p.add_powerup X t2).powerup_timers X = some (t1 + t2) ∧
    dictGet? (p.add_powerup X t2).active_powerups X = some true := by
  unfold Player.add_powerup
  refine ⟨?_, ?_⟩ <;> simp only [h1] <;> exact dictGet?_dictSet_self ..

/-- Witness for C6: a speed powerup with 5 seconds left, re-collected
with duration 12, ends at 17 seconds and stays active. -/
theorem C6_witness :
    dictGet? (((Player.reset 0 0 0).add_powerup "speed" 5).add_powerup "speed" 12).powerup_timers
        "speed" = some (5 + 12) ∧
    dictGet? (((Player.reset 0 0 0).add_powerup "speed" 5).add_powerup "speed" 12).active_powerups
        "speed" = some true :=
  C6_add_powerup_extends_timer ((Player.reset 0 0 0).add_powerup "speed" 5) "speed" 5 12
    (by simp [Player.reset, Player.add_powerup, dictGet?, dictSet]) (by norm_num)

/-! ### C7 -/

/-- C7: spawning a particle into a full arena is a silent no-op.  When
`active_particles` equals the capacity, `_add_dimension_particle`
returns before touching any state: the count stays at capacity, every
pool entry is unchanged and nothing is raised. -/
theorem C7_spawn_on_full_arena_is_noop (w : ParticleArena) (dimension : ℤ)
    (player_x player_y camera_x camera_y : ℚ) (offset_x offset_y size : ℤ)
    (vx vy life : ℚ) (h : w.active_particles = particle_pool_size) :
    addDimensionParticle w dimension player_x player_y camera_x camera_y
      offset_x offset_y size vx vy life = w := by
  unfold addDimensionParticle
  rw [h]
  simp

/-- Witness for C7: a concrete full 300-slot arena is returned untouched
by a spawn attempt. -/
theorem C7_witness :
    addDimensionParticle fullArena 1 0 0 0 0 0 0 3 0 0 1 = fullArena :=
  C7_spawn_on_full_arena_is_noop fullArena 1 0 0 0 0 0 0 3 0 0 1 (by rfl)

/-! ### C8 -/

/-- C8: the per-frame aging-and-compaction step of `World.update` leaves
exactly the aged entries with positive lifetime, in their original
relative order, as the prefix `[0, active_particles)` of the pool, sets
`active_particles` to the survivor count, and keeps it within the
capacity. -/
theorem C8_compaction_keeps_survivors_in_order (w : ParticleArena) (dt : ℚ)
    (hle : w.active_particles ≤ w.foreground_particles.length)
    (hcap : w.foreground_particles.length = particle_pool_size) :
    (worldParticleStep w dt).active_particles
        = (((w.foreground_particles.take w.active_particles).map (ageParticle dt)).filter
            (fun pa => 0 < pa.life)).length
    ∧ (worldParticleStep w dt).foreground_particles.take
          (worldParticleStep w dt).active_particles
        = ((w.foreground_particles.take w.active_particles).map (ageParticle dt)).filter
            (fun pa => 0 < pa.life)
    ∧ (worldParticleStep w dt).active_particles ≤ particle_pool_size := by
  obtain ⟨pool, A⟩ := w
  dsimp only at hle hcap ⊢
  have hagedlen : ((pool.take A).map (ageParticle dt)).length = A := by
    rw [List.length_map, List.length_take]
    omega
  have hsplit := particle_filter_split ((pool.take A).map (ageParticle dt))
  unfold worldParticleStep
  dsimp only
  by_cases h0 : A = 0
  · subst h0
    have hnil : ((pool.take 0).map (ageParticle dt)) = [] := by simp
    simp [hnil]
  · rw [if_neg h0]
    by_cases hdead : (((pool.take A).map (ageParticle dt)).filter
        (fun pa => pa.life ≤ 0)).length = 0
    · rw [if_pos hdead]
      dsimp only
      have hall := List.filter_eq_nil_iff.mp (List.length_eq_zero.mp hdead)
      have hself : ((pool.take A).map (ageParticle dt)).filter (fun pa => 0 < pa.life)
          = (pool.take A).map (ageParticle dt) := by
        refine List.filter_eq_self.mpr ?_
        intro a ha
        have := hall a ha
        simp only [decide_eq_true_eq] at this ⊢
        exact lt_of_not_le this
      have htake : ((pool.take A).map (ageParticle dt) ++ pool.drop A).take A
          = (pool.take A).map (ageParticle dt) := by
        calc ((pool.take A).map (ageParticle dt) ++ pool.drop A).take A
            = ((pool.take A).map (ageParticle dt) ++ pool.drop A).take
                ((pool.take A).map (ageParticle dt)).length := by rw [hagedlen]
          _ = (pool.take A).map (ageParticle dt) := List.take_left _ _
      refine ⟨by rw [hself, hagedlen], by rw [hself, htake], by omega⟩
    · rw [if_neg hdead]
      have hsurv : (((pool.take A).map (ageParticle dt)).filter (fun pa => 0 < pa.life)).length
          = A - (((pool.take A).map (ageParticle dt)).filter (fun pa => pa.life ≤ 0)).length := by
        omega
      by_cases hna : A - (((pool.take A).map (ageParticle dt)).filter
          (fun pa => pa.life ≤ 0)).length = 0
      · rw [if_pos hna]
        dsimp only
        have hzero : (((pool.take A).map (ageParticle dt)).filter
            (fun pa => 0 < pa.life)).length = 0 := by omega
        have hnil := List.length_eq_zero.mp hzero
        exact ⟨by omega, by simp only [List.take_zero, hnil], by omega⟩
      · rw [if_neg hna]
        dsimp only
        have htake : (writeFront ((pool.take A).map (ageParticle dt) ++ pool.drop A)
              (((pool.take A).map (ageParticle dt)).filter (fun pa => 0 < pa.life))).take
              (A - (((pool.take A).map (ageParticle dt)).filter
                (fun pa => pa.life ≤ 0)).length)
            = ((pool.take A).map (ageParticle dt)).filter (fun pa => 0 < pa.life) := by
          unfold writeFront
          rw [← hsurv]
          exact List.take_left _ _
        exact ⟨by omega, htake, by omega⟩

/-- Witness for C8: a pool with one dying and one surviving active
particle; after the step the survivor alone occupies the active prefix. -/
theorem C8_witness :
    (worldParticleStep mixedArena 1).active_particles
        = (((mixedArena.foreground_particles.take mixedArena.active_particles).map
            (ageParticle 1)).filter (fun pa => 0 < pa.life)).length
    ∧ (worldParticleStep mixedArena 1).foreground_particles.take
          (worldParticleStep mixedArena 1).active_particles
        = ((mixedArena.foreground_particles.take mixedArena.active_particles).map
            (ageParticle 1)).filter (fun pa => 0 < pa.life)
    ∧ (worldParticleStep mixedArena 1).active_particles ≤ particle_pool_size :=
  C8_compaction_keeps_survivors_in_order mixedArena 1
    (by simp [mixedArena]) (by simp [mixedArena, particle_pool_size])

/-! ### C9 -/

/-- If some portal in the list is hit, the scan triggers and stamps
`last_portal_time` with `now`. -/
theorem portalScan_of_hit (p : Player) (now : ℚ) :
    ∀ portals : List Portal, (∃ portal ∈ portals, portalHit p portal = true) →
      (portalScan p now portals).2 = true ∧
      (portalScan p now portals).1.last_portal_time = now := by
  intro portals
  induction portals with
  | nil => rintro ⟨portal, hmem, _⟩; cases hmem
  | cons portal rest ih =>
      rintro ⟨q, hmem, hq⟩
      by_cases hhit : portalHit p portal = true
      · simp [portalScan, hhit]
      · rcases List.mem_cons.mp hmem with rfl | hmem2
        · exact absurd hq hhit
        · simpa [portalScan, hhit] using ih ⟨q, hmem2, hq⟩

/-- C9: portal triggers obey the 1-second cooldown.  Any overlap check
less than 1 second after the stored last trigger (or reset) time fires
nothing and leaves the state untouched; a check at least 1 second after
it, while overlapping some portal, fires `levelComplete` again and
restamps the cooldown with the current time. -/
theorem C9_portal_cooldown (p : Player) (portals : List Portal) (now : ℚ) :
    (now - p.last_portal_time < 1 → p.check_portal_collision portals now = (p, false))
    ∧ (1 ≤ now - p.last_portal_time →
        (∃ portal ∈ portals, portalHit p portal = true) →
        (p.check_portal_collision portals now).2 = true ∧
        (p.check_portal_collision portals now).1.last_portal_time = now) := by
  constructor
  · intro h
    simp [Player.check_portal_collision, h]
  · intro h hex
    have hnot : ¬ (now - p.last_portal_time < 1) := not_lt.mpr h
    simpa [Player.check_portal_collision, hnot] using portalScan_of_hit p now portals hex

/-- Witness for C9: a freshly reset actor standing in a portal.  At 0.5
seconds after the reset stamp nothing fires; at 2 seconds the overlap
fires and restamps the cooldown. -/
theorem C9_witness :
    (Player.reset 0 0 0).check_portal_collision [originPortal] 0.5 = (Player.reset 0 0 0, false)
    ∧ ((Player.reset 0 0 0).check_portal_collision [originPortal] 2).2 = true
    ∧ ((Player.reset 0 0 0).check_portal_collision [originPortal] 2).1.last_portal_time = 2 := by
  have h1 := (C9_portal_cooldown (Player.reset 0 0 0) [originPortal] 0.5).1 (by
    norm_num [Player.reset])
  have hhit : portalHit (Player.reset 0 0 0) originPortal = true := by
    norm_num [portalHit, originPortal, Player.reset, Portal.get_rect, Player.get_rect, mkRect,
      pyInt, Rect.collidepoint, Rect.right, Rect.bottom]
  have h2 := (C9_portal_cooldown (Player.reset 0 0 0) [originPortal] 2).2 (by
    norm_num [Player.reset]) ⟨originPortal, by simp, hhit⟩
  exact ⟨h1, h2.1, h2.2⟩

/-! ### Resolver lemmas shared by several claims -/

/-- A resolution step never changes the actor's width. -/
theorem platformStep_width (pr br : Rect) (dim : ℤ) (s : Player) (plat : Platform) :
    (platformStep pr br dim s plat).width = s.width := by
  unfold platformStep
  dsimp only
  split
  · rfl
  · split
    · rfl
    · split
      · rfl
      · split <;> rfl

/-- A resolution step never changes the actor's height. -/
theorem platformStep_height (pr br : Rect) (dim : ℤ) (s : Player) (plat : Platform) :
    (platformStep pr br dim s plat).height = s.height := by
  unfold platformStep
  dsimp only
  split
  · rfl
  · split
    · rfl
    · split
      · rfl
      · split <;> rfl

/-- A resolution step never changes the jump limit. -/
theorem platformStep_max_jumps (pr br : Rect) (dim : ℤ) (s : Player) (plat : Platform) :
    (platformStep pr br dim s plat).max_jumps = s.max_jumps := by
  unfold platformStep
  dsimp only
  split
  · rfl
  · split
    · rfl
    · split
      · rfl
      · split <;> rfl

/-- A resolution step either resets the jump counter or leaves it. -/
theorem platformStep_jump_count (pr br : Rect) (dim : ℤ) (s : Player) (plat : Platform) :
    (platformStep pr br dim s plat).jump_count = 0
    ∨ (platformStep pr br dim s plat).jump_count = s.jump_count := by
  unfold platformStep
  dsimp only
  split
  · exact Or.inr rfl
  · split
    · exact Or.inr rfl
    · split
      · exact Or.inl rfl
      · split <;> first | exact Or.inl rfl | exact Or.inr rfl

/-- The horizontal position is written only when a resolution step takes
a horizontal branch. -/
theorem platformStep_x_of_not_horizontal (pr br : Rect) (dim : ℤ) (s : Player) (plat : Platform)
    (h : stepIsHorizontal pr br dim s plat = false) :
    (platformStep pr br dim s plat).x = s.x := by
  unfold platformStep
  dsimp only
  by_cases h1 : plat.dimension_visible = -1 ∨ plat.dimension_visible = dim
  · rw [if_neg (not_not_intro h1)]
    by_cases h2 : pr.colliderect plat.get_rect = true
    · rw [if_neg (not_not_intro h2)]
      by_cases h3 : br.colliderect plat.get_rect = true ∧ 0 ≤ s.velocity_y
      · rw [if_pos h3]
      · rw [if_neg h3]
        rcases hc : check_collision pr plat.get_rect with _ | _ | _ | _ | _ <;>
          simp only [hc] <;>
          first
            | rfl
            | (exfalso
               simp [stepIsHorizontal, h1, h2, hc] at h
               exact h3 h)
    · rw [if_pos h2]
  · rw [if_pos h1]

/-- The ground-probe branch of a resolution step: snap the bottom to the
platform top, stop falling, ground the actor and reset the jump
counter. -/
theorem platformStep_probe (pr br : Rect) (dim : ℤ) (s : Player) (plat : Platform)
    (hvis : plat.dimension_visible = -1 ∨ plat.dimension_visible = dim)
    (hov : pr.colliderect plat.get_rect = true)
    (hpr : br.colliderect plat.get_rect = true)
    (hvy : 0 ≤ s.velocity_y) :
    platformStep pr br dim s plat =
      { s with y := (plat.get_rect.top : ℚ) - s.height
             , velocity_y := 0
             , on_ground := true
             , jump_count := 0 } := by
  unfold platformStep
  dsimp only
  rw [if_neg (not_not_intro hvis), if_neg (not_not_intro hov), if_pos ⟨hpr, hvy⟩]

/-- Resolution of a single platform hit by the ground probe of an actor
that is not rising. -/
theorem check_platform_collisions_single_landing (p : Player) (plat : Platform) (dim : ℤ)
    (hvis : plat.dimension_visible = -1 ∨ plat.dimension_visible = dim)
    (hov : p.get_rect.colliderect plat.get_rect = true)
    (hpr : p.bottomProbeRect.colliderect plat.get_rect = true)
    (hvy : 0 ≤ p.velocity_y) :
    p.check_platform_collisions [plat] dim =
      { p with y := (plat.get_rect.top : ℚ) - p.height
             , velocity_y := 0
             , on_ground := true
             , jump_count := 0 } := by
  unfold Player.check_platform_collisions
  dsimp only [List.foldl]
  exact platformStep_probe _ _ dim { p with on_ground := false } plat hvis hov hpr hvy

/-! ### C2 -/

/-- C2: FALSE of the code (code bug) in the horizontal case.
`horizPlayer` (center-x 120) overlaps `horizPlatform` (center-x 185,
spanning x 135..235) with `ox = 5 < oy = 60`, so the collision is
horizontal and the claim places the actor at the platform edge on its
own (left) side, `x = 135 - 40 + 1 = 96`.  `check_collision` labels the
hit with the actor's impacted side (`right`), but
`check_platform_collisions` resolves that label by teleporting the
actor to the platform's right edge, `x = 235 - 1 = 234` — the opposite
side; the vertical part of the claim (the `bottom` label resolved as a
landing) does hold, so the two horizontal handlers are interchanged. -/
theorem C2_horizontal_resolution_crosses_platform :
    check_collision horizPlayer.get_rect horizPlatform.get_rect = CollisionSide.right
    ∧ (horizPlayer.check_platform_collisions [horizPlatform] 1).x = 234
    ∧ ¬ ((234 : ℚ) = horizPlatform.x - horizPlayer.width + 1) := by
  refine ⟨?_, ?_, ?_⟩
  · norm_num [horizPlayer, horizPlatform, Player.reset, Player.get_rect, Platform.get_rect,
      mkRect, pyInt, check_collision, Rect.colliderect, Rect.right, Rect.bottom,
      Rect.centerx, Rect.centery]
  · norm_num [horizPlayer, horizPlatform, Player.reset, Player.check_platform_collisions,
      platformStep, Player.get_rect, Player.bottomProbeRect, Platform.get_rect, mkRect, pyInt,
      check_collision, Rect.colliderect, Rect.right, Rect.bottom, Rect.centerx, Rect.centery]
  · norm_num [horizPlayer, horizPlatform, Player.reset]

/-! ### C3 -/

/-- Counterexample to C3 as stated: `clipPlayer` enters resolution with
vertical velocity 0 against the single visible platform `clipPlatform`;
the ground probe misses it, the collision resolves horizontally, and the
actor is left still overlapping the platform (the 1-unit epsilon keeps
the AABBs interpenetrating). -/
theorem C3_counterexample :
    0 ≤ clipPlayer.velocity_y
    ∧ clipPlatform.dimension_visible = -1
    ∧ (clipPlayer.check_platform_collisions [clipPlatform] 1).get_rect.colliderect
        clipPlatform.get_rect = true := by
  refine ⟨?_, ?_, ?_⟩
  · norm_num [clipPlayer, Player.reset]
  · norm_num [clipPlatform]
  · norm_num [clipPlayer, clipPlatform, Player.reset, Player.check_platform_collisions,
      platformStep, Player.get_rect, Player.bottomProbeRect, Platform.get_rect, mkRect, pyInt,
      check_collision, Rect.colliderect, Rect.right, Rect.bottom, Rect.centerx, Rect.centery]

/-- C3 amended: on the ground-contact path the property holds.  For a
single dimension-visible platform whose AABB and ground probe both
overlap the actor while its vertical velocity is ≥ 0 at entry, the
resolution snaps the actor's bottom exactly to the platform top and the
two AABBs no longer overlap. -/
theorem C3_amended_no_overlap_after_landing (p : Player) (plat : Platform) (dim : ℤ)
    (hvis : plat.dimension_visible = -1 ∨ plat.dimension_visible = dim)
    (hov : p.get_rect.colliderect plat.get_rect = true)
    (hpr : p.bottomProbeRect.colliderect plat.get_rect = true)
    (hvy : 0 ≤ p.velocity_y)
    (hh : p.height = 60) :
    (p.check_platform_collisions [plat] dim).get_rect.colliderect plat.get_rect = false := by
  rw [check_platform_collisions_single_landing p plat dim hvis hov hpr hvy]
  have hcast : ((plat.get_rect.top : ℚ) - 60) = (((plat.get_rect.top - 60 : ℤ)) : ℚ) := by
    push_cast
    ring
  have hy : pyInt ((plat.get_rect.top : ℚ) - p.height) = plat.get_rect.top - 60 := by
    rw [hh, hcast]
    exact pyInt_intCast _
  have hhgt : pyInt p.height = 60 := by
    rw [hh, show (60 : ℚ) = ((60 : ℤ) : ℚ) by norm_num]
    exact pyInt_intCast _
  have hlt : ¬ (plat.get_rect.top < plat.get_rect.top - 60 + 60) := by omega
  simp [Player.get_rect, mkRect, Rect.colliderect, Rect.bottom, hy, hhgt, hlt]

/-- Witness for C3 (amended): a falling actor probe-landing on a
platform directly below ends clear of it. -/
theorem C3_witness :
    (landPlayer.check_platform_collisions [landPlatform] 1).get_rect.colliderect
      landPlatform.get_rect = false :=
  C3_amended_no_overlap_after_landing landPlayer landPlatform 1
    (by norm_num [landPlatform])
    (by norm_num [landPlayer, landPlatform, Player.reset, Player.get_rect, Platform.get_rect,
      mkRect, pyInt, Rect.colliderect, Rect.right, Rect.bottom])
    (by norm_num [landPlayer, landPlatform, Player.reset, Player.bottomProbeRect,
      Platform.get_rect, mkRect, pyInt, Rect.colliderect, Rect.right, Rect.bottom])
    (by norm_num [landPlayer, Player.reset])
    (by norm_num [landPlayer, Player.reset])

/-! ### C5 -/

/-- A whole resolution pass keeps the jump invariant. -/
theorem check_platform_collisions_jumpBound (p : Player) (platforms : List Platform) (dim : ℤ)
    (h : jumpBound p) : jumpBound (p.check_platform_collisions platforms dim) := by
  unfold Player.check_platform_collisions
  dsimp only
  have key : ∀ (l : List Platform) (t : Player), jumpBound t →
      jumpBound (l.foldl (platformStep ({ p with on_ground := false } : Player).get_rect
        ({ p with on_ground := false } : Player).bottomProbeRect dim) t) := by
    intro l
    induction l with
    | nil => intro t ht; exact ht
    | cons plat rest ih =>
        intro t ht
        rw [List.foldl_cons]
        refine ih _ ⟨?_, ?_⟩
        · rcases platformStep_jump_count _ _ dim t plat with h0 | h0 <;> rw [h0]
          · exact Nat.zero_le 3
          · exact ht.1
        · rw [platformStep_max_jumps]
          exact ht.2
  exact key platforms { p with on_ground := false } ⟨h.1, h.2⟩

/-- A `jump()` call keeps the jump invariant. -/
theorem jump_jumpBound (p : Player) (h : jumpBound p) : jumpBound (p.jump).1 := by
  unfold Player.jump
  rcases h with ⟨hc, hm⟩
  by_cases hlt : p.jump_count < p.max_jumps
  · rw [if_pos hlt]
    dsimp only
    refine ⟨?_, hm⟩
    show p.jump_count + 1 ≤ 3
    rcases hm with h2 | h2 <;> omega
  · rw [if_neg hlt]
    exact ⟨hc, hm⟩

/-- The method `add_powerup` keeps the jump invariant. -/
theorem add_powerup_jumpBound (p : Player) (t : String) (d : ℚ) (h : jumpBound p) :
    jumpBound (p.add_powerup t d) := by
  unfold Player.add_powerup
  refine ⟨h.1, ?_⟩
  dsimp only
  by_cases ht : t = "jump"
  · rw [if_pos ht]
    exact Or.inr rfl
  · rw [if_neg ht]
    exact h.2

/-- The method `update_powerups` keeps the jump invariant. -/
theorem update_powerups_jumpBound (p : Player) (dt : ℚ) (h : jumpBound p) :
    jumpBound (p.update_powerups dt) := by
  unfold Player.update_powerups
  dsimp only
  have key : ∀ (l : List String) (t : Player), jumpBound t →
      jumpBound (l.foldl expirePowerup t) := by
    intro l
    induction l with
    | nil => intro t ht; exact ht
    | cons s rest ih =>
        intro t ht
        rw [List.foldl_cons]
        refine ih _ ⟨ht.1, ?_⟩
        unfold expirePowerup
        dsimp only
        by_cases hs : s = "jump"
        · rw [if_pos hs]
          exact Or.inl rfl
        · rw [if_neg hs]
          exact ht.2
  have hst : jumpBound ({ p with
      powerup_timers := List.map (fun kv => (kv.1, kv.2 - dt)) p.powerup_timers } : Player) :=
    ⟨h.1, h.2⟩
  have hfold := key
    (List.map (fun kv => kv.1)
      (List.filter (fun kv => decide (kv.2 ≤ 0))
        (List.map (fun kv => (kv.1, kv.2 - dt)) p.powerup_timers)))
    _ hst
  split
  · exact ⟨hfold.1, hfold.2⟩
  · exact hfold

/-- Every actor operation keeps the jump invariant. -/
theorem applyOp_jumpBound (p : Player) (op : PlayerOp) (h : jumpBound p) :
    jumpBound (applyOp p op) := by
  cases op with
  | jumpOp => exact jump_jumpBound p h
  | addPowerupOp t d => exact add_powerup_jumpBound p t d h
  | updatePowerupsOp dt => exact update_powerups_jumpBound p dt h
  | platformsOp platforms dim => exact check_platform_collisions_jumpBound p platforms dim h

/-- Counterexample to C5 as stated: grant a jump powerup (limit 3),
triple-jump, then let the powerup expire.  The limit reverts to 2 while
the jump counter is still 3, so `jumpCount ≤ jumpLimit` is violated even
though every step was a legal `jump()` call or an update. -/
theorem C5_counterexample :
    (runOps (Player.reset 0 0 0)
        [PlayerOp.addPowerupOp "jump" 1, PlayerOp.jumpOp, PlayerOp.jumpOp, PlayerOp.jumpOp,
         PlayerOp.updatePowerupsOp 1]).jump_count = 3
    ∧ (runOps (Player.reset 0 0 0)
        [PlayerOp.addPowerupOp "jump" 1, PlayerOp.jumpOp, PlayerOp.jumpOp, PlayerOp.jumpOp,
         PlayerOp.updatePowerupsOp 1]).max_jumps = 2
    ∧ ¬ ((runOps (Player.reset 0 0 0)
        [PlayerOp.addPowerupOp "jump" 1, PlayerOp.jumpOp, PlayerOp.jumpOp, PlayerOp.jumpOp,
         PlayerOp.updatePowerupsOp 1]).jump_count
          ≤ (runOps (Player.reset 0 0 0)
        [PlayerOp.addPowerupOp "jump" 1, PlayerOp.jumpOp, PlayerOp.jumpOp, PlayerOp.jumpOp,
         PlayerOp.updatePowerupsOp 1]).max_jumps) := by
  refine ⟨?_, ?_, ?_⟩ <;>
    norm_num [runOps, applyOp, Player.reset, Player.jump, Player.add_powerup,
      Player.update_powerups, expirePowerup, Player.get_powerup_effect, dictGet?, dictSet,
      dictDel, dictGetD, List.foldl, PLAYER_JUMP_STRENGTH]

/-- C5 amended: `jump()` succeeds exactly when `jumpCount < jumpLimit`,
each success increments `jumpCount` and clears the on-ground flag, a
ground-probe landing resolution resets `jumpCount` to 0, and across any
sequence of jumps, powerup grants, powerup expiries and resolution
passes `jumpCount` stays ≤ 3 with `jumpLimit ∈ {2, 3}` — but `jumpCount`
may transiently exceed `jumpLimit` when the jump powerup expires with
three jumps outstanding (see the counterexample). -/
theorem C5_amended_jump_bookkeeping (p : Player) (hp : jumpBound p) :
    (∀ ops : List PlayerOp, jumpBound (runOps p ops))
    ∧ ((p.jump).2 = true ↔ p.jump_count < p.max_jumps)
    ∧ ((p.jump).2 = true → (p.jump).1.jump_count = p.jump_count + 1
        ∧ (p.jump).1.on_ground = false)
    ∧ (∀ (plat : Platform) (dim : ℤ),
        (plat.dimension_visible = -1 ∨ plat.dimension_visible = dim) →
        p.get_rect.colliderect plat.get_rect = true →
        p.bottomProbeRect.colliderect plat.get_rect = true →
        0 ≤ p.velocity_y →
        (p.check_platform_collisions [plat] dim).jump_count = 0) := by
  refine ⟨?_, ?_, ?_, ?_⟩
  · intro ops
    induction ops generalizing p with
    | nil => exact hp
    | cons op rest ih =>
        unfold runOps
        rw [List.foldl_cons]
        exact ih (applyOp p op) (applyOp_jumpBound p op hp)
  · unfold Player.jump
    by_cases hlt : p.jump_count < p.max_jumps
    · simp [hlt]
    · simp [hlt]
  · intro hs
    unfold Player.jump at hs ⊢
    by_cases hlt : p.jump_count < p.max_jumps
    · rw [if_pos hlt]
      exact ⟨rfl, rfl⟩
    · rw [if_neg hlt] at hs
      cases hs
  · intro plat dim hvis hov hpr hvy
    rw [check_platform_collisions_single_landing p plat dim hvis hov hpr hvy]

/-- Witness for C5 (amended): a freshly reset actor satisfies the
invariant after a jump, its first jump succeeds, and a probe landing
resets the counter. -/
theorem C5_witness :
    jumpBound (runOps (Player.reset 320 495 0) [PlayerOp.jumpOp])
    ∧ ((Player.reset 320 495 0).jump).2 = true
    ∧ (({ Player.reset 320 495 0 with velocity_y := 5 } : Player).check_platform_collisions
        [landPlatform] 1).jump_count = 0 := by
  have h0 : jumpBound (Player.reset 320 495 0) := by
    constructor <;> norm_num [Player.reset, jumpBound]
  have h := C5_amended_jump_bookkeeping (Player.reset 320 495 0) h0
  have h5 : jumpBound ({ Player.reset 320 495 0 with velocity_y := 5 } : Player) := by
    constructor <;> norm_num [Player.reset, jumpBound]
  have h2 := C5_amended_jump_bookkeeping
    ({ Player.reset 320 495 0 with velocity_y := 5 } : Player) h5
  refine ⟨h.1 [PlayerOp.jumpOp], ?_, ?_⟩
  · exact (h.2.1).mpr (by norm_num [Player.reset])
  · exact h2.2.2.2 landPlatform 1 (by norm_num [landPlatform])
      (by norm_num [landPlayer, landPlatform, Player.reset, Player.get_rect, Platform.get_rect,
        mkRect, pyInt, Rect.colliderect, Rect.right, Rect.bottom])
      (by norm_num [landPlayer, landPlatform, Player.reset, Player.bottomProbeRect,
        Platform.get_rect, mkRect, pyInt, Rect.colliderect, Rect.right, Rect.bottom])
      (by norm_num)

/-! ### C10 -/

/-- A resolution pass in which no iteration takes a horizontal branch
never writes the horizontal position. -/
theorem foldl_platformStep_x (pr br : Rect) (dim : ℤ) :
    ∀ (l : List Platform) (t : Player), horizontalResolved pr br dim t l = false →
      (l.foldl (platformStep pr br dim) t).x = t.x := by
  intro l
  induction l with
  | nil => intro t _; rfl
  | cons plat rest ih =>
      intro t h
      unfold horizontalResolved at h
      rw [Bool.or_eq_false_iff] at h
      rw [List.foldl_cons, ih _ h.2]
      exact platformStep_x_of_not_horizontal pr br dim t plat h.1

/-- The resolver `check_platform_collisions` preserves `x` whenever the
call resolves no platform as a horizontal collision. -/
theorem check_platform_collisions_x (p : Player) (platforms : List Platform) (dim : ℤ)
    (h : p.resolvesHorizontally platforms dim = false) :
    (p.check_platform_collisions platforms dim).x = p.x := by
  unfold Player.resolvesHorizontally at h
  unfold Player.check_platform_collisions
  dsimp only
  exact foldl_platformStep_x _ _ dim platforms _ h

theorem update_animation_x (p : Player) (dt : ℚ) : (p.update_animation dt).x = p.x := by
  unfold Player.update_animation
  simp only [apply_ite Player.x, ite_self]

/-- The integration phase ends with `x` clamped into the level bounds. -/
theorem integrate_x (p : Player) (dt : ℚ) :
    (p.integrate dt).x = max 0 (min (p.x + p.velocity_x * dt) (LEVEL_WIDTH - p.width)) := by
  unfold Player.integrate Player.update_animation
  simp only [apply_ite Player.x, apply_ite Player.velocity_x, apply_ite Player.width, ite_self]

theorem integrate_x_bounds (p : Player) (dt : ℚ) (hw : p.width = 40) :
    0 ≤ (p.integrate dt).x ∧ (p.integrate dt).x ≤ LEVEL_WIDTH - p.width := by
  rw [integrate_x]
  refine ⟨le_max_left 0 _, max_le ?_ (min_le_right _ _)⟩
  rw [hw]
  norm_num [LEVEL_WIDTH]

theorem stepEventPhase_x (p : Player) : (p.stepEventPhase).1.x = p.x := by
  unfold Player.stepEventPhase
  simp only [apply_ite (Prod.fst : Player × Bool → Player), apply_ite Player.x, ite_self]

theorem update_powerups_x (p : Player) (dt : ℚ) : (p.update_powerups dt).x = p.x := by
  have key : ∀ (l : List String) (t : Player), (l.foldl expirePowerup t).x = t.x := by
    intro l
    induction l with
    | nil => intro t; rfl
    | cons s rest ih =>
        intro t
        rw [List.foldl_cons, ih]
        rfl
  unfold Player.update_powerups
  dsimp only
  have hfold := key
    (List.map (fun kv => kv.1)
      (List.filter (fun kv => decide (kv.2 ≤ 0))
        (List.map (fun kv => (kv.1, kv.2 - dt)) p.powerup_timers)))
    ({ p with powerup_timers := List.map (fun kv => (kv.1, kv.2 - dt)) p.powerup_timers } : Player)
  split
  · exact hfold
  · exact hfold

theorem animationStatePhase_x (p : Player) : p.animationStatePhase.x = p.x := by
  unfold Player.animationStatePhase
  split
  · split <;> rfl
  · split <;> rfl

theorem portalScan_x (p : Player) (now : ℚ) :
    ∀ portals : List Portal, (portalScan p now portals).1.x = p.x := by
  intro portals
  induction portals with
  | nil => rfl
  | cons portal rest ih =>
      unfold portalScan
      split
      · rfl
      · exact ih

theorem check_portal_collision_x (p : Player) (portals : List Portal) (now : ℚ) :
    (p.check_portal_collision portals now).1.x = p.x := by
  unfold Player.check_portal_collision
  split
  · rfl
  · exact portalScan_x p now portals

theorem check_enemy_collisions_x (p : Player) :
    ∀ enemies : List Enemy, (p.check_enemy_collisions enemies).1.x = p.x := by
  intro enemies
  induction enemies with
  | nil => rfl
  | cons e rest ih =>
      unfold Player.check_enemy_collisions
      split
      · exact ih
      · split
        · split
          · rfl
          · split
            · rfl
            · exact ih
        · exact ih

theorem applyDeathEvents_x (p : Player) (hit : Option String) (ev : Events) :
    (p.applyDeathEvents hit ev).1.x = p.x := by
  unfold Player.applyDeathEvents
  simp only [apply_ite (Prod.fst : Player × Events → Player), apply_ite Player.x, ite_self]

/-- No phase after platform resolution writes `x`: after a full
`update` of a live actor, `x` is exactly the post-resolution horizontal
position. -/
theorem update_player_x (p : Player) (dt : ℚ) (platforms : List Platform)
    (portals : List Portal) (collectibles : List Collectible) (enemies : List Enemy)
    (dim : ℤ) (now : ℚ) (halive : p.is_dead = false) :
    (p.update dt platforms portals collectibles enemies dim now).player.x
      = ((p.integrate dt).check_platform_collisions platforms dim).x := by
  unfold Player.update
  rw [if_neg (by simp [halive])]
  dsimp only
  simp only [applyDeathEvents_x, check_enemy_collisions_x, apply_ite Player.x, ite_self,
    check_portal_collision_x, animationStatePhase_x, update_powerups_x, stepEventPhase_x]

/-- Counterexample to C10 as stated: `borderPlayer` (alive, rising, at
x = 50) update-steps against the wall `borderPlatform`; the horizontal
resolution writes `x = 0 - 40 + 1 = -39`, outside the world bounds the
claim asserts, even though the integration clamp had kept `x = 50`. -/
theorem C10_counterexample :
    (borderPlayer.update 1 [borderPlatform] [] [] [] 1 0).player.x = -39
    ∧ ¬ (0 ≤ ((-39 : ℚ)) ) := by
  constructor
  · rw [update_player_x borderPlayer 1 [borderPlatform] [] [] [] 1 0
      (by norm_num [borderPlayer, Player.reset])]
    have hs1 : ("idle" : String) ≠ "run" := by decide
    have hs2 : ("idle" : String) ≠ "jump" := by decide
    have hs3 : ("idle" : String) ≠ "fall" := by decide
    have hint : (borderPlayer.integrate 1).x = 50 ∧ (borderPlayer.integrate 1).y = 181/2
        ∧ (borderPlayer.integrate 1).velocity_y = -(19/2)
        ∧ (borderPlayer.integrate 1).width = 40 ∧ (borderPlayer.integrate 1).height = 60 := by
      refine ⟨?_, ?_, ?_, ?_, ?_⟩ <;>
        norm_num [borderPlayer, Player.reset, Player.integrate, Player.update_animation,
          Player.get_powerup_effect, dictGetD, dictGet?, GRAVITY, MAX_FALL_SPEED, LEVEL_WIDTH,
          mkRect, pyInt, hs1, hs2, hs3]
    unfold Player.check_platform_collisions
    dsimp only [List.foldl]
    rw [show ({ borderPlayer.integrate 1 with on_ground := false } : Player).get_rect
        = mkRect ((borderPlayer.integrate 1).x) ((borderPlayer.integrate 1).y)
            ((borderPlayer.integrate 1).width) ((borderPlayer.integrate 1).height) from rfl]
    rw [show ({ borderPlayer.integrate 1 with on_ground := false } : Player).bottomProbeRect
        = mkRect ((borderPlayer.integrate 1).x + 2)
            ((borderPlayer.integrate 1).y + (borderPlayer.integrate 1).height - 6)
            ((borderPlayer.integrate 1).width - 4) 10 from rfl]
    rw [hint.1, hint.2.1, hint.2.2.2.1, hint.2.2.2.2]
    norm_num [platformStep, borderPlatform, Platform.get_rect, mkRect, pyInt, check_collision,
      Rect.colliderect, Rect.right, Rect.bottom, Rect.centerx, Rect.centery, hint.2.2.1,
      hint.1]
  · norm_num

/-- C10 amended: the bound `0 ≤ x ≤ LEVEL_WIDTH - width` is enforced by
the integration clamp and therefore holds after any `update` of a live
actor in which no platform resolves as a horizontal collision; a
horizontal resolution can move `x` outside the bound (see the
counterexample). -/
theorem C10_amended_x_bounds (p : Player) (dt : ℚ) (platforms : List Platform)
    (portals : List Portal) (collectibles : List Collectible) (enemies : List Enemy)
    (dim : ℤ) (now : ℚ) (halive : p.is_dead = false) (hw : p.width = 40)
    (hnh : (p.integrate dt).resolvesHorizontally platforms dim = false) :
    0 ≤ (p.update dt platforms portals collectibles enemies dim now).player.x
    ∧ (p.update dt platforms portals collectibles enemies dim now).player.x
        ≤ LEVEL_WIDTH - p.width := by
  rw [update_player_x p dt platforms portals collectibles enemies dim now halive,
    check_platform_collisions_x _ platforms dim hnh]
  exact integrate_x_bounds p dt hw

/-! ### C4 -/

/-- Counterexample to C4 as stated: a live actor with 3 lives falls past
the fall-out threshold (no enemies anywhere).  `update` emits
`playerDeath` and decrements lives to 2, lives remain, yet the
hit-invincibility timer stays 0 — the fall-out branch never grants the
post-hit invincibility window. -/
theorem C4_counterexample :
    (fallenPlayer.update 1 [] [] [] [] 1 0).events.player_death = true
    ∧ (fallenPlayer.update 1 [] [] [] [] 1 0).player.lives = 2
    ∧ (fallenPlayer.update 1 [] [] [] [] 1 0).player.is_dead = false
    ∧ ¬ (0 < (fallenPlayer.update 1 [] [] [] [] 1 0).player.invincible_timer) := by
  have hs1 : ("idle" : String) ≠ "run" := by decide
  have hs2 : ("idle" : String) ≠ "jump" := by decide
  have hs3 : ("idle" : String) ≠ "fall" := by decide
  have hn : ∀ s : String, (Option.none : Option String) ≠ some s := fun s h =>
    Option.noConfusion h
  refine ⟨?_, ?_, ?_, ?_⟩ <;>
    norm_num [hn, fallenPlayer, Player.reset, Player.update, Player.integrate,
      Player.update_animation, Player.get_powerup_effect, dictGetD, dictGet?,
      Player.check_platform_collisions, Player.stepEventPhase, Player.update_powerups,
      expirePowerup, Player.animationStatePhase, Player.check_portal_collision, portalScan,
      Player.check_collectible_collisions, Player.check_enemy_collisions, Player.is_invincible,
      Player.applyDeathEvents, GRAVITY, MAX_FALL_SPEED, LEVEL_WIDTH, LEVEL_HEIGHT,
      PLAYER_STARTING_LIVES, mkRect, pyInt, hs1, hs2, hs3]

/-- C4 amended: both `playerDeath` triggers decrement lives by exactly
one and set the dead state exactly when no lives remain, but only the
enemy-contact trigger grants the post-hit invincibility window; the
fall-out trigger leaves the hit-invincibility timer untouched. -/
theorem C4_amended_death_bookkeeping (p : Player) (hit : Option String) (ev : Events) :
    (hit = some "player_death" → p.is_invincible = false → ¬ (LEVEL_HEIGHT < p.y) →
      (p.applyDeathEvents hit ev).1.lives = p.lives - 1
      ∧ (p.applyDeathEvents hit ev).2.player_death = true
      ∧ (0 < p.lives - 1 → (p.applyDeathEvents hit ev).1.is_dead = false
          ∧ (p.applyDeathEvents hit ev).1.invincible_timer = PLAYER_INVINCIBILITY_AFTER_HIT)
      ∧ (p.lives - 1 ≤ 0 → (p.applyDeathEvents hit ev).1.is_dead = true))
    ∧ (hit = Option.none → LEVEL_HEIGHT < p.y →
      (p.applyDeathEvents hit ev).1.lives = p.lives - 1
      ∧ (p.applyDeathEvents hit ev).2.player_death = true
      ∧ ((p.applyDeathEvents hit ev).1.is_dead = true ↔ p.lives - 1 ≤ 0)
      ∧ (p.applyDeathEvents hit ev).1.invincible_timer = p.invincible_timer) := by
  constructor
  · intro h1 h2 h3
    subst h1
    have hinv2 : dictGetD p.active_powerups "invincibility" false = false := by
      have h4 := h2
      unfold Player.is_invincible at h4
      exact (Bool.or_eq_false_iff.mp h4).2
    by_cases hd : p.lives - 1 ≤ 0
    · refine ⟨?_, ?_, ?_, ?_⟩
      · simp [Player.applyDeathEvents, h2, hinv2, h3, hd]
      · simp [Player.applyDeathEvents, h2, hinv2, h3, hd]
      · intro h0
        exact absurd hd (by omega)
      · intro _
        simp [Player.applyDeathEvents, h2, hinv2, h3, hd]
    · refine ⟨?_, ?_, ?_, ?_⟩
      · simp [Player.applyDeathEvents, h2, hinv2, h3, hd]
      · simp [Player.applyDeathEvents, h2, hinv2, h3, hd]
      · intro _
        constructor <;> simp [Player.applyDeathEvents, h2, hinv2, h3, hd]
      · intro h0
        exact absurd h0 hd
  · intro h1 h2
    subst h1
    refine ⟨?_, ?_, ?_, ?_⟩ <;>
      simp [Player.applyDeathEvents, h2, decide_eq_true_iff]

/-- Witness for C4 (amended): an actor at full lives hit by an enemy
while vulnerable keeps 2 lives, stays alive and gains the invincibility
window; one past the fall-out threshold loses a life with no window. -/
theorem C4_witness :
    ((Player.reset 0 0 0).applyDeathEvents (some "player_death") {}).1.lives
        = (Player.reset 0 0 0).lives - 1
    ∧ ((Player.reset 0 0 0).applyDeathEvents (some "player_death") {}).1.invincible_timer
        = PLAYER_INVINCIBILITY_AFTER_HIT
    ∧ (fallenPlayer.applyDeathEvents Option.none {}).1.lives = fallenPlayer.lives - 1
    ∧ (fallenPlayer.applyDeathEvents Option.none {}).1.invincible_timer
        = fallenPlayer.invincible_timer := by
  have h1 := (C4_amended_death_bookkeeping (Player.reset 0 0 0) (some "player_death") {}).1
    rfl
    (by norm_num [Player.reset, Player.is_invincible, dictGetD, dictGet?])
    (by norm_num [Player.reset, LEVEL_HEIGHT])
  have h2 := (C4_amended_death_bookkeeping fallenPlayer Option.none {}).2
    rfl
    (by norm_num [fallenPlayer, Player.reset, LEVEL_HEIGHT])
  have h3 := h1.2.2.1 (by norm_num [Player.reset, PLAYER_STARTING_LIVES])
  exact ⟨h1.1, h3.2, h2.1, h2.2.2.2⟩

/-- Witness for C10 (amended): a live actor updated over an empty
platform registry stays inside the horizontal world bounds. -/
theorem C10_witness :
    0 ≤ ((Player.reset 100 300 0).update 1 [] [] [] [] 1 0).player.x
    ∧ ((Player.reset 100 300 0).update 1 [] [] [] [] 1 0).player.x
        ≤ LEVEL_WIDTH - (Player.reset 100 300 0).width :=
  C10_amended_x_bounds (Player.reset 100 300 0) 1 [] [] [] [] 1 0
    (by norm_num [Player.reset]) (by norm_num [Player.reset]) (by rfl)

end DimSwitch
